import Mathlib

/-!
Shallow embedding of `src/security_manager.py` (class `SecurityManagerAI`).

Conventions of the embedding:
- Python `datetime` values are modelled as `Int` seconds; every method takes a
  single `now : Int` parameter standing for all `datetime.now()` calls made
  during that method invocation, and `timedelta(seconds=n)` is `+ n`.
- The Python `dict` `active_sessions` is a `List (String × Session)` with the
  usual association-list semantics (first binding wins on lookup; insertion
  removes any previous binding of the key, so keys stay pairwise distinct).
- A Python result dict is a structure; a key that is only present on some
  paths (`requires_2fa`, `2fa_verified`, `access_level`, `username`) is an
  `Option` field, `none` meaning the key is absent.
- `secrets.token_urlsafe(32)` is modelled as a function of a randomness seed
  producing a 43-character URL-safe string (the length Python produces for
  32 random bytes); each method that draws a token takes the seed explicitly.
- Methods are state-passing: `State → args → (Result × State)`.
-/

namespace SecurityManager

/-- A session record, the value stored in `active_sessions`
(`security_manager.py` lines 95-100). -/
structure Session where
  username : String
  created_at : Int
  expires_at : Int
  access_level : String
deriving Repr, DecidableEq

/-- Result dictionary of `authenticate_user` (lines 64-70 plus the keys added
on individual paths). `none` models an absent key. -/
structure AuthResult where
  username : String
  authenticated : Bool
  session_token : Option String
  access_level : Option String
  timestamp : Int
  requires_2fa : Option Bool
  twofa_verified : Option Bool
deriving Repr, DecidableEq

/-- Result dictionary of `secure_online_access` (lines 118-123 plus the keys
added on the granted path). -/
structure AccessResult where
  resource : String
  access_granted : Bool
  reason : Option String
  timestamp : Int
  access_level : Option String
  username : Option String
deriving Repr, DecidableEq

/-- Per-resource entry built by `enable_secure_access` (lines 169-174). -/
structure ResourceSecurity where
  resource : String
  status : String
  encryption : Bool
  access_control : Bool
deriving Repr, DecidableEq

/-- Result dictionary of `enable_secure_access` (lines 160-166). -/
structure SecureAccessResult where
  resources_secured : Nat
  encryption_enabled : Bool
  twofa_enabled : Bool
  timestamp : Int
  resources : List ResourceSecurity
deriving Repr, DecidableEq

/-- One audit-log element: `_log_access_attempt` appends the attempt dict
(which is either an authentication result or an access result) together with
a `logged_at` timestamp (lines 180-185). -/
inductive AuditEntry where
  | auth (r : AuthResult) (logged_at : Int)
  | access (r : AccessResult) (logged_at : Int)
deriving Repr, DecidableEq

/-- Result dictionary of `get_security_status` (lines 189-195). -/
structure SecurityStatus where
  active_sessions : Nat
  total_access_logs : Nat
  twofa_enabled : Bool
  encryption_enabled : Bool
  session_timeout : Int
deriving Repr, DecidableEq

/-- The `security_manager` section of the configuration dict: each recognized
key may be present or absent (`config.get` with a default, lines 27-30). -/
structure SMConfig where
  enable_2fa : Option Bool
  session_timeout : Option Int
  encryption_enabled : Option Bool
  access_levels : Option (List String)
deriving Repr, DecidableEq

/-- The outer configuration dict: the `security_manager` key may be absent
(line 26). -/
structure Config where
  security_manager : Option SMConfig
deriving Repr, DecidableEq

/-- The mutable state of a `SecurityManagerAI` instance. -/
structure SecurityManagerAI where
  enable_2fa : Bool
  session_timeout : Int
  encryption_enabled : Bool
  access_levels : List String
  active_sessions : List (String × Session)
  access_logs : List AuditEntry
deriving Repr, DecidableEq

namespace Store

/-- Association-list lookup, first binding wins (Python `dict.get`). -/
def lookup : List (String × Session) → String → Option Session
  | [], _ => none
  | p :: rest, k => if p.1 = k then some p.2 else lookup rest k

/-- Key removal (Python `del d[k]`). -/
def erase : List (String × Session) → String → List (String × Session)
  | [], _ => []
  | p :: rest, k => if p.1 = k then erase rest k else p :: erase rest k

/-- Key assignment (Python `d[k] = v`): removes any previous binding of `k`,
so keys stay pairwise distinct. -/
def insert (m : List (String × Session)) (k : String) (v : Session) :
    List (String × Session) :=
  (k, v) :: erase m k

end Store

/-- The URL-safe alphabet used by `secrets.token_urlsafe`. -/
def urlsafeChars : List Char :=
  "ABCDEFGHIJKLMNOPQRSTUVWXYZabcdefghijklmnopqrstuvwxyz0123456789-_".toList

/-- `generate_session_token` (line 39): models `secrets.token_urlsafe(32)` as a
function of a randomness seed, producing the 43 URL-safe characters that
base64url-encoding 32 random bytes yields. -/
def generate_session_token (seed : Nat) : String :=
  String.mk ((List.range 43).map (fun i => urlsafeChars.getD (seed / 64 ^ i % 64) 'A'))

/-- `generate_2fa_code` (line 43): models `secrets.randbelow(1000000)` applied
to a randomness seed, zero-padded to 6 digits. -/
def generate_2fa_code (seed : Nat) : String :=
  let digits := Nat.toDigits 10 (seed % 1000000)
  String.mk (List.replicate (6 - digits.length) '0' ++ digits)

/-- `_log_access_attempt` (lines 180-185): append the attempt with a
`logged_at` timestamp to `access_logs`. -/
def log_access_attempt (s : SecurityManagerAI) (e : AuditEntry) : SecurityManagerAI :=
  { s with access_logs := s.access_logs ++ [e] }

/-- `SecurityManagerAI.__init__` (lines 24-35): every configuration key is read
with `config.get(key, default)`; construction is total. -/
def SecurityManagerAI.init (config : Config) : SecurityManagerAI :=
  let sm := config.security_manager.getD ⟨none, none, none, none⟩
  { enable_2fa := sm.enable_2fa.getD true
    session_timeout := sm.session_timeout.getD 3600
    encryption_enabled := sm.encryption_enabled.getD true
    access_levels := sm.access_levels.getD ["admin", "user", "guest"]
    active_sessions := []
    access_logs := [] }

/-- `authenticate_user` (lines 49-105). `seed` feeds the session-token draw on
the success path; `now` stands for every `datetime.now()` in the call. The
password is hashed and then ignored, exactly as in the source (line 73). -/
def SecurityManagerAI.authenticate_user (s : SecurityManagerAI)
    (username _password : String) (two_fa_code : Option String)
    (now : Int) (seed : Nat) : AuthResult × SecurityManagerAI :=
  let base : AuthResult :=
    { username := username, authenticated := true, session_token := none
      access_level := none, timestamp := now, requires_2fa := none
      twofa_verified := none }
  if s.enable_2fa ∧ two_fa_code = none then
    ({ base with requires_2fa := some true, authenticated := false }, s)
  else
    let afterTwofa :=
      if s.enable_2fa then { base with twofa_verified := some true } else base
    if afterTwofa.authenticated then
      let token := generate_session_token seed
      let r := { afterTwofa with session_token := some token, access_level := some "user" }
      let sess : Session :=
        { username := username, created_at := now
          expires_at := now + s.session_timeout, access_level := "user" }
      let s' := { s with active_sessions := Store.insert s.active_sessions token sess }
      (r, log_access_attempt s' (.auth r now))
    else
      (afterTwofa, log_access_attempt s (.auth afterTwofa now))

/-- `secure_online_access` (lines 107-148). -/
def SecurityManagerAI.secure_online_access (s : SecurityManagerAI)
    (session_token resource : String) (now : Int) :
    AccessResult × SecurityManagerAI :=
  let base : AccessResult :=
    { resource := resource, access_granted := false, reason := none
      timestamp := now, access_level := none, username := none }
  match Store.lookup s.active_sessions session_token with
  | none => ({ base with reason := some "Invalid session token" }, s)
  | some session =>
    if now > session.expires_at then
      ({ base with reason := some "Session expired" },
       { s with active_sessions := Store.erase s.active_sessions session_token })
    else
      let r := { base with
        access_granted := true
        access_level := some session.access_level
        username := some session.username }
      (r, log_access_attempt s (.access r now))

/-- `enable_secure_access` (lines 150-178): a pure configuration echo over the
resource list; it reads only the config flags and touches no other state. -/
def SecurityManagerAI.enable_secure_access (s : SecurityManagerAI)
    (resources : List String) (now : Int) :
    SecureAccessResult × SecurityManagerAI :=
  ({ resources_secured := resources.length
     encryption_enabled := s.encryption_enabled
     twofa_enabled := s.enable_2fa
     timestamp := now
     resources := resources.map (fun r =>
       { resource := r, status := "secured"
         encryption := s.encryption_enabled, access_control := true }) }, s)

/-- `get_security_status` (lines 187-195). -/
def SecurityManagerAI.get_security_status (s : SecurityManagerAI) :
    SecurityStatus × SecurityManagerAI :=
  ({ active_sessions := s.active_sessions.length
     total_access_logs := s.access_logs.length
     twofa_enabled := s.enable_2fa
     encryption_enabled := s.encryption_enabled
     session_timeout := s.session_timeout }, s)

/-- `cleanup_expired_sessions` (lines 197-209): collect the tokens whose
session is past expiry, delete each, return how many. With pairwise-distinct
keys this equals filtering the association list. -/
def SecurityManagerAI.cleanup_expired_sessions (s : SecurityManagerAI)
    (now : Int) : Nat × SecurityManagerAI :=
  let expired := s.active_sessions.filter (fun p => now > p.2.expires_at)
  (expired.length,
   { s with active_sessions :=
       s.active_sessions.filter (fun p => ¬ now > p.2.expires_at) })

/-- One public operation on a `SecurityManagerAI`, used to quantify over all
operations in invariant statements. -/
inductive Op where
  | auth (username password : String) (code : Option String) (seed : Nat)
  | access (token resource : String)
  | enableSec (resources : List String)
  | status
  | cleanup
deriving Repr, DecidableEq

/-- The state after running one operation at time `now`. -/
def SecurityManagerAI.step (s : SecurityManagerAI) (op : Op) (now : Int) :
    SecurityManagerAI :=
  match op with
  | .auth u p c seed => (s.authenticate_user u p c now seed).2
  | .access tok r => (s.secure_online_access tok r now).2
  | .enableSec rs => (s.enable_secure_access rs now).2
  | .status => s.get_security_status.2
  | .cleanup => (s.cleanup_expired_sessions now).2

/-- The per-session invariant maintained by the store: every stored session's
`expires_at` equals its `created_at` plus the configured timeout. -/
def sessionInv (s : SecurityManagerAI) : Prop :=
  ∀ q ∈ s.active_sessions, q.2.expires_at = q.2.created_at + s.session_timeout

/-- `tokenFresh op tok` says that `tok` is not the token the operation draws
from the generator (relevant only for `auth`, the one operation that inserts;
the spec treats generated tokens as collision-free). -/
def Op.tokenFresh : Op → String → Prop
  | .auth _ _ _ seed, tok => tok ≠ generate_session_token seed
  | _, _ => True

/-- After one operation, every stored session either already existed with the
exact same record, or was created by that very operation with
`created_at = now` and `expires_at = now + session_timeout`: no operation
rewrites an existing session record. -/
def stepPreservesSessions (s : SecurityManagerAI) (op : Op) (now : Int) : Prop :=
  ∀ q ∈ (s.step op now).active_sessions,
    q ∈ s.active_sessions ∨
      (q.2.created_at = now ∧ q.2.expires_at = now + s.session_timeout)

/-- `cleanup_expired_sessions` at time `t` keeps exactly the store entries
whose `expires_at` has not passed. -/
def sweepRemovesExactlyExpired (s : SecurityManagerAI) (t : Int) : Prop :=
  ∀ q : String × Session,
    q ∈ (s.cleanup_expired_sessions t).2.active_sessions ↔
      q ∈ s.active_sessions ∧ ¬ t > q.2.expires_at

namespace Store

theorem lookup_insert_self (m : List (String × Session)) (k : String)
    (v : Session) : lookup (insert m k v) k = some v := by
  simp [insert, lookup]

theorem lookup_erase_ne (m : List (String × Session)) {k k0 : String}
    (h : k ≠ k0) : lookup (erase m k0) k = lookup m k := by
  induction m with
  | nil => rfl
  | cons q rest ih =>
    by_cases hq : q.1 = k0
    · simp [erase, lookup, hq, ih, Ne.symm h]
    · by_cases hk : q.1 = k <;> simp [erase, lookup, hq, hk, ih, h]

theorem lookup_erase_self (m : List (String × Session)) (k : String) :
    lookup (erase m k) k = none := by
  induction m with
  | nil => rfl
  | cons q rest ih =>
    by_cases hq : q.1 = k <;> simp [erase, lookup, hq, ih]

theorem lookup_insert_ne (m : List (String × Session)) {k k0 : String}
    (v : Session) (h : k ≠ k0) : lookup (insert m k0 v) k = lookup m k := by
  have hne : ¬ k0 = k := Ne.symm h
  simp only [insert, lookup, hne, if_false]
  exact lookup_erase_ne m h

theorem lookup_mem {m : List (String × Session)} {k : String} {v : Session}
    (h : lookup m k = some v) : (k, v) ∈ m := by
  induction m with
  | nil => simp [lookup] at h
  | cons q rest ih =>
    rcases q with ⟨a, b⟩
    by_cases hq : a = k
    · simp only [lookup, hq, if_true] at h
      rw [Option.some.injEq] at h
      subst hq
      subst h
      exact List.mem_cons_self _ _
    · simp only [lookup, hq, if_false] at h
      exact List.mem_cons_of_mem _ (ih h)

theorem lookup_none_of_not_mem {m : List (String × Session)} {k : String}
    (h : k ∉ m.map Prod.fst) : lookup m k = none := by
  induction m with
  | nil => rfl
  | cons q rest ih =>
    rcases q with ⟨a, b⟩
    simp only [List.map_cons, List.mem_cons] at h
    push_neg at h
    have ha : ¬ a = k := Ne.symm h.1
    simp [lookup, ha, ih h.2]

theorem lookup_filter_none {m : List (String × Session)} {k : String}
    (p : String × Session → Bool) (h : lookup m k = none) :
    lookup (m.filter p) k = none := by
  induction m with
  | nil => rfl
  | cons q rest ih =>
    by_cases hq : q.1 = k
    · simp [lookup, hq] at h
    · simp only [lookup, hq, if_false] at h
      by_cases hp : p q <;> simp [List.filter_cons, hp, lookup, hq, ih h]

theorem mem_erase {q : String × Session} {m : List (String × Session)}
    {k : String} (h : q ∈ erase m k) : q ∈ m := by
  induction m with
  | nil => simp [erase] at h
  | cons p rest ih =>
    by_cases hp : p.1 = k
    · simp only [erase, hp, if_true] at h
      exact List.mem_cons_of_mem _ (ih h)
    · simp only [erase, hp, if_false, List.mem_cons] at h
      rcases h with h | h
      · exact h ▸ List.mem_cons_self _ _
      · exact List.mem_cons_of_mem _ (ih h)

theorem lookup_filter_nodup {m : List (String × Session)} {k : String}
    {v : Session} (p : String × Session → Bool)
    (hnd : (m.map Prod.fst).Nodup) (h : lookup m k = some v) :
    lookup (m.filter p) k = if p (k, v) then some v else none := by
  induction m with
  | nil => simp [lookup] at h
  | cons q rest ih =>
    rcases q with ⟨a, b⟩
    simp only [List.map_cons, List.nodup_cons] at hnd
    by_cases hq : a = k
    · subst hq
      simp only [lookup, if_true] at h
      rw [Option.some.injEq] at h
      subst h
      by_cases hp : p (a, b)
      · simp [List.filter_cons, hp, lookup]
      · have hnone : lookup rest a = none :=
          lookup_none_of_not_mem (by simpa using hnd.1)
        simp only [List.filter_cons]
        simp only [hp, Bool.false_eq_true, if_false]
        simpa [hp] using lookup_filter_none p hnone
    · simp only [lookup, hq, if_false] at h
      by_cases hp : p (a, b) <;>
        simp [List.filter_cons, hp, lookup, hq, ih hnd.2 h]

end Store

/-- The session-token model always produces a 43-character string, the length
of `secrets.token_urlsafe(32)` output. -/
theorem generate_session_token_length (seed : Nat) :
    (generate_session_token seed).length = 43 := by
  simp [generate_session_token, String.length]

theorem generate_session_token_ne_empty (seed : Nat) :
    generate_session_token seed ≠ "" := by
  intro h
  have h43 := generate_session_token_length seed
  rw [h] at h43
  exact absurd h43 (by decide)

/-- Computation lemma: on an unknown token, `secure_online_access` denies with
the invalid-token reason and leaves the state untouched. -/
theorem secure_online_access_not_found {s : SecurityManagerAI}
    {tok res : String} {now : Int}
    (h : Store.lookup s.active_sessions tok = none) :
    s.secure_online_access tok res now =
      ({ resource := res
         access_granted := false
         reason := some "Invalid session token"
         timestamp := now
         access_level := none
         username := none }, s) := by
  simp [SecurityManagerAI.secure_online_access, h]

/-- Computation lemma: when the 2FA gate does not fire, `authenticate_user`
issues the generated token and inserts the corresponding session. -/
theorem authenticate_user_success {s : SecurityManagerAI} {u pw : String}
    {c : Option String} {now : Int} {seed : Nat}
    (hc : s.enable_2fa = false ∨ c ≠ none) :
    (s.authenticate_user u pw c now seed).1.session_token =
      some (generate_session_token seed) ∧
    (s.authenticate_user u pw c now seed).2.active_sessions =
      Store.insert s.active_sessions (generate_session_token seed)
        { username := u
          created_at := now
          expires_at := now + s.session_timeout
          access_level := "user" } := by
  rcases hc with hb | hcne
  · rcases c with _ | code <;>
      simp [SecurityManagerAI.authenticate_user, hb, log_access_attempt]
  · rcases c with _ | code
    · exact absurd rfl hcne
    · by_cases hb : s.enable_2fa <;>
        simp [SecurityManagerAI.authenticate_user, hb, log_access_attempt]

/-- C1 (amended): `authenticate_user` appends exactly one audit-log entry on
the paths that run to the end of the function (2FA disabled, or a code
supplied) and none on the 2FA-required early return; `secure_online_access`
appends exactly one entry only when access is granted, and none on the
invalid-token and expired paths. -/
theorem audit_log_growth (s : SecurityManagerAI) (u pw tok res : String)
    (c : Option String) (now : Int) (seed : Nat) :
    (s.authenticate_user u pw c now seed).2.access_logs.length =
      s.access_logs.length + (if s.enable_2fa ∧ c = none then 0 else 1) ∧
    (s.secure_online_access tok res now).2.access_logs.length =
      s.access_logs.length +
        (match Store.lookup s.active_sessions tok with
         | none => 0
         | some sess => if now > sess.expires_at then 0 else 1) := by
  constructor
  · rcases c with _ | code <;> by_cases hb : s.enable_2fa <;>
      simp [SecurityManagerAI.authenticate_user, hb, log_access_attempt]
  · cases hl : Store.lookup s.active_sessions tok with
    | none => simp [SecurityManagerAI.secure_online_access, hl]
    | some sess =>
      by_cases he : now > sess.expires_at <;>
        simp [SecurityManagerAI.secure_online_access, hl, he, log_access_attempt]

/-- C1 counterexample: a 2FA-required `authenticate_user` call and an
invalid-token `secure_online_access` call leave the audit log unchanged, so
the log length is not the previous length plus one. -/
theorem audit_log_growth_counterexample :
    ((SecurityManagerAI.init ⟨none⟩).authenticate_user "alice" "pw" none 0 0).2.access_logs.length
        ≠ (SecurityManagerAI.init ⟨none⟩).access_logs.length + 1 ∧
    ((SecurityManagerAI.init ⟨none⟩).authenticate_user "alice" "pw" none 0 0).2.access_logs.length
        = (SecurityManagerAI.init ⟨none⟩).access_logs.length ∧
    ((SecurityManagerAI.init ⟨none⟩).secure_online_access "bad" "r" 0).2.access_logs.length
        = (SecurityManagerAI.init ⟨none⟩).access_logs.length := by
  refine ⟨by decide, by decide, by decide⟩

/-- C3: with 2FA enabled and no second-factor code supplied,
`authenticate_user` returns `authenticated = false` with
`requires_2fa = true`, issues no session token, and leaves the session store
unchanged. -/
theorem twofa_required_no_session (s : SecurityManagerAI) (u pw : String)
    (now : Int) (seed : Nat) (h2fa : s.enable_2fa = true) :
    (s.authenticate_user u pw none now seed).1.authenticated = false ∧
    (s.authenticate_user u pw none now seed).1.requires_2fa = some true ∧
    (s.authenticate_user u pw none now seed).1.session_token = none ∧
    (s.authenticate_user u pw none now seed).2.active_sessions =
      s.active_sessions := by
  simp [SecurityManagerAI.authenticate_user, h2fa]

theorem twofa_required_no_session_witness :
    ((SecurityManagerAI.init ⟨none⟩).authenticate_user "a" "p" none 0 0).1.authenticated = false ∧
    ((SecurityManagerAI.init ⟨none⟩).authenticate_user "a" "p" none 0 0).1.requires_2fa = some true ∧
    ((SecurityManagerAI.init ⟨none⟩).authenticate_user "a" "p" none 0 0).1.session_token = none ∧
    ((SecurityManagerAI.init ⟨none⟩).authenticate_user "a" "p" none 0 0).2.active_sessions =
      (SecurityManagerAI.init ⟨none⟩).active_sessions :=
  twofa_required_no_session (SecurityManagerAI.init ⟨none⟩) "a" "p" 0 0 (by rfl)

/-- C4 counterexample: construction with the `security_manager` section
missing entirely, or present but missing `enable_2fa` and `session_timeout`,
does not abort: it yields a manager with the defaulted values
`enable_2fa = true` and `session_timeout = 3600`. -/
theorem init_aborts_counterexample :
    (SecurityManagerAI.init ⟨none⟩).enable_2fa = true ∧
    (SecurityManagerAI.init ⟨none⟩).session_timeout = 3600 ∧
    (SecurityManagerAI.init ⟨some ⟨none, none, none, none⟩⟩).enable_2fa = true ∧
    (SecurityManagerAI.init ⟨some ⟨none, none, none, none⟩⟩).session_timeout = 3600 := by
  decide

/-- C4 (amended): construction never aborts; a missing `security_manager`
section or missing `enable_2fa`/`session_timeout` keys are silently defaulted
to `true` and `3600` respectively, while supplied values are honored. -/
theorem init_defaults (b e : Option Bool) (ti : Option Int)
    (al : Option (List String)) (t0 : Int) (b0 : Bool) :
    (SecurityManagerAI.init ⟨none⟩).enable_2fa = true ∧
    (SecurityManagerAI.init ⟨none⟩).session_timeout = 3600 ∧
    (SecurityManagerAI.init ⟨some ⟨none, ti, e, al⟩⟩).enable_2fa = true ∧
    (SecurityManagerAI.init ⟨some ⟨b, none, e, al⟩⟩).session_timeout = 3600 ∧
    (SecurityManagerAI.init ⟨some ⟨some b0, some t0, e, al⟩⟩).enable_2fa = b0 ∧
    (SecurityManagerAI.init ⟨some ⟨some b0, some t0, e, al⟩⟩).session_timeout = t0 := by
  simp [SecurityManagerAI.init]

/-- C7 (amended): `enable_secure_access` returns `resources_secured` equal to
the length of the input list and exactly one per-resource entry per named
resource, in order, each reflecting the current `encryption_enabled` flag
(with status `secured` and `access_control = true`); `enable_2fa` is echoed
once at the top level of the result, not in the per-resource entries; the
call gates nothing and leaves the whole manager state (sessions and audit
log included) unchanged. -/
theorem enable_secure_access_echo (s : SecurityManagerAI)
    (resources : List String) (now : Int) :
    (s.enable_secure_access resources now).1.resources_secured = resources.length ∧
    (s.enable_secure_access resources now).1.resources.length = resources.length ∧
    (s.enable_secure_access resources now).1.resources =
      resources.map (fun name =>
        { resource := name
          status := "secured"
          encryption := s.encryption_enabled
          access_control := true }) ∧
    (s.enable_secure_access resources now).1.encryption_enabled = s.encryption_enabled ∧
    (s.enable_secure_access resources now).1.twofa_enabled = s.enable_2fa ∧
    (s.enable_secure_access resources now).2 = s := by
  simp [SecurityManagerAI.enable_secure_access]

/-- C7 counterexample: two managers that differ only in `enable_2fa` produce
identical per-resource entry lists, so the per-resource entries cannot
reflect the `enable_2fa` flag (only the top-level result does). -/
theorem enable_secure_access_counterexample :
    ({ SecurityManagerAI.init ⟨none⟩ with enable_2fa := true } : SecurityManagerAI).enable_2fa ≠
      ({ SecurityManagerAI.init ⟨none⟩ with enable_2fa := false } : SecurityManagerAI).enable_2fa ∧
    (({ SecurityManagerAI.init ⟨none⟩ with enable_2fa := true } : SecurityManagerAI).enable_secure_access
        ["a"] 0).1.resources =
      (({ SecurityManagerAI.init ⟨none⟩ with enable_2fa := false } : SecurityManagerAI).enable_secure_access
        ["a"] 0).1.resources := by
  refine ⟨by decide, by decide⟩

/-- C10: `get_security_status` reports `active_sessions` as the raw size of
the session map (counting sessions already past expiry that no lookup or
sweep has removed yet) and `total_access_logs` as the audit-log length, and
performs no eviction: the state is returned unchanged. -/
theorem status_raw_counts (s : SecurityManagerAI) :
    s.get_security_status.1.active_sessions = s.active_sessions.length ∧
    s.get_security_status.1.total_access_logs = s.access_logs.length ∧
    s.get_security_status.2 = s := by
  simp [SecurityManagerAI.get_security_status]

/-- C2 (amended): when the session behind a token has expired,
`secure_online_access` returns `access_granted = false` with reason
`Session expired` (the expired reason, not the invalid-token one), and
deletes the session as a side effect of the call, so a subsequent lookup of
the token finds no session and a subsequent access call reports
`Invalid session token`. -/
theorem expired_session_evicted (s : SecurityManagerAI) (tok res res2 : String)
    (now now2 : Int) (sess : Session)
    (hfound : Store.lookup s.active_sessions tok = some sess)
    (hexp : now > sess.expires_at) :
    (s.secure_online_access tok res now).1.access_granted = false ∧
    (s.secure_online_access tok res now).1.reason = some "Session expired" ∧
    Store.lookup (s.secure_online_access tok res now).2.active_sessions tok = none ∧
    ((s.secure_online_access tok res now).2.secure_online_access tok res2 now2).1.reason =
      some "Invalid session token" := by
  have hstate : (s.secure_online_access tok res now).2.active_sessions =
      Store.erase s.active_sessions tok := by
    simp [SecurityManagerAI.secure_online_access, hfound, hexp]
  have hnone : Store.lookup (s.secure_online_access tok res now).2.active_sessions tok = none := by
    rw [hstate]
    exact Store.lookup_erase_self _ _
  refine ⟨?_, ?_, hnone, ?_⟩
  · simp [SecurityManagerAI.secure_online_access, hfound, hexp]
  · simp [SecurityManagerAI.secure_online_access, hfound, hexp]
  · rw [secure_online_access_not_found hnone]

theorem expired_session_evicted_witness :
    (({ SecurityManagerAI.init ⟨none⟩ with
        active_sessions := [("t1", ⟨"alice", 0, 5, "user"⟩)] } : SecurityManagerAI).secure_online_access
        "t1" "r" 10).1.access_granted = false ∧
    (({ SecurityManagerAI.init ⟨none⟩ with
        active_sessions := [("t1", ⟨"alice", 0, 5, "user"⟩)] } : SecurityManagerAI).secure_online_access
        "t1" "r" 10).1.reason = some "Session expired" ∧
    Store.lookup (({ SecurityManagerAI.init ⟨none⟩ with
        active_sessions := [("t1", ⟨"alice", 0, 5, "user"⟩)] } : SecurityManagerAI).secure_online_access
        "t1" "r" 10).2.active_sessions "t1" = none ∧
    ((({ SecurityManagerAI.init ⟨none⟩ with
        active_sessions := [("t1", ⟨"alice", 0, 5, "user"⟩)] } : SecurityManagerAI).secure_online_access
        "t1" "r" 10).2.secure_online_access "t1" "r" 11).1.reason =
      some "Invalid session token" :=
  expired_session_evicted _ "t1" "r" "r" 10 11 ⟨"alice", 0, 5, "user"⟩ (by decide) (by decide)

/-- C2 counterexample: at a concrete expired session, the denial reason the
code returns is `Session expired`, which differs from the invalid-token
reason `Invalid session token` the claim names. -/
theorem expired_session_reason_counterexample :
    (({ SecurityManagerAI.init ⟨none⟩ with
        active_sessions := [("t1", ⟨"alice", 0, 5, "user"⟩)] } : SecurityManagerAI).secure_online_access
        "t1" "r" 10).1.reason = some "Session expired" ∧
    ¬ (({ SecurityManagerAI.init ⟨none⟩ with
        active_sessions := [("t1", ⟨"alice", 0, 5, "user"⟩)] } : SecurityManagerAI).secure_online_access
        "t1" "r" 10).1.reason = some "Invalid session token" := by
  refine ⟨by decide, by decide⟩

/-- C5: whenever authentication fully succeeds (2FA disabled, or a code
supplied), `authenticate_user` returns a non-empty session token, the store
immediately maps that token to a session carrying the caller's username, and
an immediate access call with that token (at the same time, with a
nonnegative configured timeout) is granted for that username. -/
theorem auth_success_token_lookup (s : SecurityManagerAI) (u pw res : String)
    (c : Option String) (now : Int) (seed : Nat)
    (hc : s.enable_2fa = false ∨ c ≠ none)
    (ht : 0 ≤ s.session_timeout) :
    ∃ tok, (s.authenticate_user u pw c now seed).1.session_token = some tok ∧
      tok ≠ "" ∧
      Store.lookup (s.authenticate_user u pw c now seed).2.active_sessions tok =
        some { username := u
               created_at := now
               expires_at := now + s.session_timeout
               access_level := "user" } ∧
      ((s.authenticate_user u pw c now seed).2.secure_online_access tok res now).1.access_granted
        = true ∧
      ((s.authenticate_user u pw c now seed).2.secure_online_access tok res now).1.username
        = some u := by
  obtain ⟨htok, hsess⟩ := authenticate_user_success hc
  refine ⟨generate_session_token seed, htok, generate_session_token_ne_empty seed, ?_, ?_, ?_⟩
  · rw [hsess]
    exact Store.lookup_insert_self _ _ _
  · have hlk : Store.lookup (s.authenticate_user u pw c now seed).2.active_sessions
        (generate_session_token seed) =
        some { username := u
               created_at := now
               expires_at := now + s.session_timeout
               access_level := "user" } := by
      rw [hsess]
      exact Store.lookup_insert_self _ _ _
    have hng : ¬ now > now + s.session_timeout := by omega
    simp [SecurityManagerAI.secure_online_access, hlk, hng]
  · have hlk : Store.lookup (s.authenticate_user u pw c now seed).2.active_sessions
        (generate_session_token seed) =
        some { username := u
               created_at := now
               expires_at := now + s.session_timeout
               access_level := "user" } := by
      rw [hsess]
      exact Store.lookup_insert_self _ _ _
    have hng : ¬ now > now + s.session_timeout := by omega
    simp [SecurityManagerAI.secure_online_access, hlk, hng]

theorem auth_success_token_lookup_witness :
    ∃ tok, ((SecurityManagerAI.init ⟨none⟩).authenticate_user "alice" "pw"
        (some "123456") 0 7).1.session_token = some tok ∧
      tok ≠ "" ∧
      Store.lookup ((SecurityManagerAI.init ⟨none⟩).authenticate_user "alice" "pw"
          (some "123456") 0 7).2.active_sessions tok =
        some { username := "alice"
               created_at := 0
               expires_at := (0 : Int) + (SecurityManagerAI.init ⟨none⟩).session_timeout
               access_level := "user" } ∧
      (((SecurityManagerAI.init ⟨none⟩).authenticate_user "alice" "pw"
          (some "123456") 0 7).2.secure_online_access tok "email_system" 0).1.access_granted
        = true ∧
      (((SecurityManagerAI.init ⟨none⟩).authenticate_user "alice" "pw"
          (some "123456") 0 7).2.secure_online_access tok "email_system" 0).1.username
        = some "alice" :=
  auth_success_token_lookup (SecurityManagerAI.init ⟨none⟩) "alice" "pw" "email_system"
    (some "123456") 0 7 (Or.inr (by decide)) (by decide)

/-- C6: credential and code verification is a no-op: two calls with the same
username, time and randomness, differing only in the secret and in the
(non-None) second-factor code supplied, agree on `authenticated`,
`requires_2fa` and `access_level`; every call with a code supplied returns
`authenticated = true`, and a call without a code returns
`authenticated = true` exactly when 2FA is disabled. -/
theorem verification_noop (s : SecurityManagerAI) (u pw1 pw2 code1 code2 : String)
    (now : Int) (seed : Nat) :
    (s.authenticate_user u pw1 (some code1) now seed).1.authenticated =
      (s.authenticate_user u pw2 (some code2) now seed).1.authenticated ∧
    (s.authenticate_user u pw1 (some code1) now seed).1.requires_2fa =
      (s.authenticate_user u pw2 (some code2) now seed).1.requires_2fa ∧
    (s.authenticate_user u pw1 (some code1) now seed).1.access_level =
      (s.authenticate_user u pw2 (some code2) now seed).1.access_level ∧
    (s.authenticate_user u pw1 (some code1) now seed).1.authenticated = true ∧
    (s.authenticate_user u pw1 none now seed).1.authenticated = !s.enable_2fa := by
  by_cases hb : s.enable_2fa <;>
    simp [SecurityManagerAI.authenticate_user, hb, log_access_attempt]

/-- Computation lemma: an access call either leaves the session map unchanged
(unknown token, or granted) or erases exactly the presented token (expired). -/
theorem secure_online_access_sessions (s : SecurityManagerAI)
    (tok res : String) (now : Int) :
    (s.secure_online_access tok res now).2.active_sessions = s.active_sessions ∨
    (s.secure_online_access tok res now).2.active_sessions =
      Store.erase s.active_sessions tok := by
  cases hl : Store.lookup s.active_sessions tok with
  | none =>
    left
    simp [SecurityManagerAI.secure_online_access, hl]
  | some sess =>
    by_cases he : now > sess.expires_at
    · right
      simp [SecurityManagerAI.secure_online_access, hl, he]
    · left
      simp [SecurityManagerAI.secure_online_access, hl, he, log_access_attempt]

/-- Computation lemma: an authentication call either leaves the session map
unchanged (2FA-required early return) or inserts exactly the freshly created
session. -/
theorem authenticate_user_sessions (s : SecurityManagerAI) (u pw : String)
    (c : Option String) (now : Int) (seed : Nat) :
    (s.authenticate_user u pw c now seed).2.active_sessions = s.active_sessions ∨
    (s.authenticate_user u pw c now seed).2.active_sessions =
      Store.insert s.active_sessions (generate_session_token seed)
        { username := u
          created_at := now
          expires_at := now + s.session_timeout
          access_level := "user" } := by
  by_cases h2 : (s.enable_2fa = true) ∧ c = none
  · left
    simp [SecurityManagerAI.authenticate_user, h2.1, h2.2]
  · right
    have hc : s.enable_2fa = false ∨ c ≠ none := by
      by_cases hb : s.enable_2fa
      · right
        intro hcn
        exact h2 ⟨hb, hcn⟩
      · left
        simpa using hb
    exact (authenticate_user_success hc).2

/-- Computation lemma: no operation changes the configured session timeout. -/
theorem step_session_timeout (s : SecurityManagerAI) (op : Op) (now : Int) :
    (s.step op now).session_timeout = s.session_timeout := by
  cases op with
  | auth u pw c seed =>
    rcases c with _ | code <;> by_cases hb : s.enable_2fa <;>
      simp [SecurityManagerAI.step, SecurityManagerAI.authenticate_user, hb,
        log_access_attempt]
  | access tok res =>
    cases hl : Store.lookup s.active_sessions tok with
    | none => simp [SecurityManagerAI.step, SecurityManagerAI.secure_online_access, hl]
    | some sess =>
      by_cases he : now > sess.expires_at <;>
        simp [SecurityManagerAI.step, SecurityManagerAI.secure_online_access, hl,
          he, log_access_attempt]
  | enableSec rs => rfl
  | status => rfl
  | cleanup => rfl

/-- C8: every stored session keeps `expires_at = created_at + session_timeout`,
fixed at creation: the invariant is preserved by every operation, the
configured timeout never changes, and after any operation every stored
session either is an unmodified pre-existing record or was created by that
very operation — in particular a granted access call never rewrites
`created_at` or `expires_at`. -/
theorem expiry_fixed_at_creation (s : SecurityManagerAI) (op : Op) (now : Int)
    (hinv : sessionInv s) :
    sessionInv (s.step op now) ∧
    (s.step op now).session_timeout = s.session_timeout ∧
    stepPreservesSessions s op now := by
  have hsub : stepPreservesSessions s op now := by
    intro q hq
    cases op with
    | auth u pw c seed =>
      simp only [SecurityManagerAI.step] at hq
      rcases authenticate_user_sessions s u pw c now seed with he | he
      · rw [he] at hq
        exact Or.inl hq
      · rw [he] at hq
        simp only [Store.insert, List.mem_cons] at hq
        rcases hq with rfl | hq
        · exact Or.inr ⟨rfl, rfl⟩
        · exact Or.inl (Store.mem_erase hq)
    | access tok res =>
      simp only [SecurityManagerAI.step] at hq
      rcases secure_online_access_sessions s tok res now with he | he
      · rw [he] at hq
        exact Or.inl hq
      · rw [he] at hq
        exact Or.inl (Store.mem_erase hq)
    | enableSec rs => exact Or.inl hq
    | status => exact Or.inl hq
    | cleanup => exact Or.inl (List.mem_filter.mp hq).1
  refine ⟨?_, step_session_timeout s op now, hsub⟩
  intro q hq
  rw [step_session_timeout s op now]
  rcases hsub q hq with h | h
  · exact hinv q h
  · rw [h.2, h.1]

theorem expiry_fixed_at_creation_witness :
    sessionInv (({ SecurityManagerAI.init ⟨none⟩ with
        active_sessions := [("t1", ⟨"alice", 0, 3600, "user"⟩)] } : SecurityManagerAI).step
        (.access "t1" "r") 10) ∧
    (({ SecurityManagerAI.init ⟨none⟩ with
        active_sessions := [("t1", ⟨"alice", 0, 3600, "user"⟩)] } : SecurityManagerAI).step
        (.access "t1" "r") 10).session_timeout =
      ({ SecurityManagerAI.init ⟨none⟩ with
        active_sessions := [("t1", ⟨"alice", 0, 3600, "user"⟩)] } : SecurityManagerAI).session_timeout ∧
    stepPreservesSessions ({ SecurityManagerAI.init ⟨none⟩ with
        active_sessions := [("t1", ⟨"alice", 0, 3600, "user"⟩)] } : SecurityManagerAI)
      (.access "t1" "r") 10 :=
  expiry_fixed_at_creation _ (.access "t1" "r") 10 (by
    unfold sessionInv
    decide)

/-- C9: `cleanup_expired_sessions` keeps exactly the sessions not yet past
expiry and returns the number removed; a second call at the same or a later
time, by which no remaining session has expired, returns 0. -/
theorem cleanup_exact_and_idempotent (s : SecurityManagerAI) (t t' : Int)
    (_hmono : t ≤ t')
    (hnonew : ∀ q ∈ (s.cleanup_expired_sessions t).2.active_sessions,
        ¬ t' > q.2.expires_at) :
    sweepRemovesExactlyExpired s t ∧
    (s.cleanup_expired_sessions t).1 =
      (s.active_sessions.filter (fun q => t > q.2.expires_at)).length ∧
    ((s.cleanup_expired_sessions t).2.cleanup_expired_sessions t').1 = 0 := by
  refine ⟨?_, rfl, ?_⟩
  · intro q
    simp [sweepRemovesExactlyExpired, SecurityManagerAI.cleanup_expired_sessions,
      List.mem_filter]
  · simp only [SecurityManagerAI.cleanup_expired_sessions]
    rw [List.length_eq_zero, List.filter_eq_nil_iff]
    intro q hq
    simpa using hnonew q hq

theorem cleanup_exact_and_idempotent_witness :
    sweepRemovesExactlyExpired ({ SecurityManagerAI.init ⟨none⟩ with
        active_sessions := [("t1", ⟨"alice", 0, 5, "user"⟩),
                            ("t2", ⟨"bob", 0, 100, "user"⟩)] } : SecurityManagerAI) 10 ∧
    (({ SecurityManagerAI.init ⟨none⟩ with
        active_sessions := [("t1", ⟨"alice", 0, 5, "user"⟩),
                            ("t2", ⟨"bob", 0, 100, "user"⟩)] } : SecurityManagerAI).cleanup_expired_sessions
        10).1 =
      (({ SecurityManagerAI.init ⟨none⟩ with
        active_sessions := [("t1", ⟨"alice", 0, 5, "user"⟩),
                            ("t2", ⟨"bob", 0, 100, "user"⟩)] } : SecurityManagerAI).active_sessions.filter
        (fun q => (10 : Int) > q.2.expires_at)).length ∧
    ((({ SecurityManagerAI.init ⟨none⟩ with
        active_sessions := [("t1", ⟨"alice", 0, 5, "user"⟩),
                            ("t2", ⟨"bob", 0, 100, "user"⟩)] } : SecurityManagerAI).cleanup_expired_sessions
        10).2.cleanup_expired_sessions 12).1 = 0 :=
  cleanup_exact_and_idempotent _ 10 12 (by decide) (by decide)

end SecurityManager
